import Mathlib

/-!
# Verification of the disjuntor circuit breaker

A shallow embedding of: disjuntor/storage.py (the in-memory counter/timer
store) and disjuntor/main.py (the Closed/Open/Half-Open state machine, the
breaker wrapper, and the factory).

Modelling conventions:
* timestamps and durations (datetime / timedelta) are natural numbers; every
  operation of the source that reads the wall clock via datetime.now takes the
  current instant as an explicit parameter named now;
* mutation of the shared storage object is explicit state passing: a Python
  method that may write the store returns the new store alongside its result;
* a guarded operation's behaviour is an Except value: Except.ok a is a normal
  return, Except.error e a raised exception carrying e.
-/

/-- MemoryStorage (storage.py, lines 31-57): per-name failure and success
counters (defaultdict, so 0 when unseen) and an optional open-since
timestamp per name. -/
structure MemoryStorage where
  failure_map : String → Nat
  success_map : String → Nat
  start_time : String → Option Nat
deriving Inhabited

/-- MemoryStorage.__init__: empty counters, no timers. -/
def MemoryStorage.new : MemoryStorage :=
  { failure_map := fun _ => 0, success_map := fun _ => 0, start_time := fun _ => none }

/-- MemoryStorage.increment_failure_counter: adds one to the failure counter
of name. -/
def MemoryStorage.increment_failure_counter (s : MemoryStorage) (name : String) : MemoryStorage :=
  { s with failure_map := fun n => if n = name then s.failure_map n + 1 else s.failure_map n }

/-- MemoryStorage.increment_success_counter: adds one to the success counter
of name. -/
def MemoryStorage.increment_success_counter (s : MemoryStorage) (name : String) : MemoryStorage :=
  { s with success_map := fun n => if n = name then s.success_map n + 1 else s.success_map n }

/-- MemoryStorage.start_timeout_timer: records now as the open-timestamp of
name, overwriting any previous value. -/
def MemoryStorage.start_timeout_timer (s : MemoryStorage) (name : String) (now : Nat) : MemoryStorage :=
  { s with start_time := fun n => if n = name then some now else s.start_time n }

/-- MemoryStorage.failure_counter: current failure count of name. -/
def MemoryStorage.failure_counter (s : MemoryStorage) (name : String) : Nat :=
  s.failure_map name

/-- MemoryStorage.success_counter: current success count of name. -/
def MemoryStorage.success_counter (s : MemoryStorage) (name : String) : Nat :=
  s.success_map name

/-- MemoryStorage.timer: the last recorded open-timestamp of name, none if
never set. -/
def MemoryStorage.timer (s : MemoryStorage) (name : String) : Option Nat :=
  s.start_time name

/-- State (main.py, lines 39-42): the three state tags. -/
inductive State where
  | OPEN
  | CLOSED
  | HALF_OPEN
deriving DecidableEq, Inhabited

/-- A state object (main.py BaseState, lines 49-86): the class tag together
with the dataclass fields it carries. The storage field of the Python
dataclass is the shared mutable store; it is threaded separately. -/
structure BaseState where
  state : State
  name : String
  timeout : Nat
  threshold : Nat
deriving DecidableEq, Inhabited

/-- BaseState.is_open (main.py, lines 70-71). -/
def BaseState.is_open (s : BaseState) : Bool :=
  s.state == State.OPEN

/-- OpenState(...) construction (main.py, lines 89-92): __post_init__ calls
storage.start_timeout_timer(name), so constructing an Open state arms the
timer; the constructor therefore also returns the updated store. -/
def OpenState (name : String) (storage : MemoryStorage) (timeout threshold : Nat)
    (now : Nat) : BaseState × MemoryStorage :=
  (⟨State.OPEN, name, timeout, threshold⟩, storage.start_timeout_timer name now)

/-- ClosedState(...) construction (main.py, line 112): no side effect. -/
def ClosedState (name : String) (timeout threshold : Nat) : BaseState :=
  ⟨State.CLOSED, name, timeout, threshold⟩

/-- HalfOpenState(...) construction (main.py, line 133): no side effect. -/
def HalfOpenState (name : String) (timeout threshold : Nat) : BaseState :=
  ⟨State.HALF_OPEN, name, timeout, threshold⟩

/-- next_state dispatched on the state tag (main.py, lines 94-103, 114-123,
135-143). Open: if a timer is recorded and timer + timeout > now, stay Open,
else a fresh Half-Open. Closed: if failure_counter(name) >= threshold, a
fresh Open (arming the timer), else self. Half-Open: if
success_counter(name) >= threshold, a fresh Closed, else self. -/
def BaseState.next_state (s : BaseState) (storage : MemoryStorage) (now : Nat) :
    BaseState × MemoryStorage :=
  match s.state with
  | State.OPEN =>
    match storage.timer s.name with
    | some t =>
      if t + s.timeout > now then (s, storage)
      else (HalfOpenState s.name s.timeout s.threshold, storage)
    | none => (HalfOpenState s.name s.timeout s.threshold, storage)
  | State.CLOSED =>
    if storage.failure_counter s.name ≥ s.threshold then
      OpenState s.name storage s.timeout s.threshold now
    else (s, storage)
  | State.HALF_OPEN =>
    if storage.success_counter s.name ≥ s.threshold then
      (ClosedState s.name s.timeout s.threshold, storage)
    else (s, storage)

/-- success dispatched on the state tag (main.py, lines 105-106, 125-126,
145-147). Only Half-Open mutates: it increments the success counter and
immediately re-evaluates next_state. -/
def BaseState.success (s : BaseState) (storage : MemoryStorage) (now : Nat) :
    BaseState × MemoryStorage :=
  match s.state with
  | State.OPEN => (s, storage)
  | State.CLOSED => (s, storage)
  | State.HALF_OPEN =>
    s.next_state (storage.increment_success_counter s.name) now

/-- failure dispatched on the state tag (main.py, lines 108-109, 128-130,
149-155). Open: no-op. Closed: increments the failure counter and
immediately re-evaluates next_state. Half-Open: a fresh Open (arming the
timer), with no counter touched. -/
def BaseState.failure (s : BaseState) (storage : MemoryStorage) (now : Nat) :
    BaseState × MemoryStorage :=
  match s.state with
  | State.OPEN => (s, storage)
  | State.CLOSED =>
    s.next_state (storage.increment_failure_counter s.name) now
  | State.HALF_OPEN =>
    OpenState s.name storage s.timeout s.threshold now

/-- _get_state (main.py, lines 158-164): maps an initial tag to a freshly
constructed state object; the OPEN branch arms the timer. -/
def _get_state (state : State) (name : String) (storage : MemoryStorage)
    (timeout threshold : Nat) (now : Nat) : BaseState × MemoryStorage :=
  match state with
  | State.OPEN => OpenState name storage timeout threshold now
  | State.CLOSED => (ClosedState name timeout threshold, storage)
  | State.HALF_OPEN => (HalfOpenState name timeout threshold, storage)

/-- CircuitBreaker (main.py, lines 167-185): name, the shared store, and the
current state object. -/
structure CircuitBreaker where
  name : String
  storage : MemoryStorage
  state : BaseState
deriving Inhabited

/-- CircuitBreaker.__init__ (main.py, lines 168-185). -/
def CircuitBreaker.init (name : String) (storage : MemoryStorage) (state : State)
    (threshold : Nat) (timeout : Nat) (now : Nat) : CircuitBreaker :=
  let p := _get_state state name storage timeout threshold now
  { name := name, storage := p.2, state := p.1 }

/-- CircuitBreaker.__enter__ (main.py, lines 227-231): advance the current
state via next_state; the Bool is whether CircuitBreakerException is raised
(the advanced state is Open). The state field is updated even when raising. -/
def CircuitBreaker.enter (cb : CircuitBreaker) (now : Nat) : CircuitBreaker × Bool :=
  let p := cb.state.next_state cb.storage now
  ({ cb with state := p.1, storage := p.2 }, p.1.is_open)

/-- CircuitBreaker.__exit__ (main.py, lines 233-242): exc is whether the body
raised; feeds the outcome to success or failure. -/
def CircuitBreaker.exit (cb : CircuitBreaker) (now : Nat) (exc : Bool) : CircuitBreaker :=
  if exc then
    let p := cb.state.failure cb.storage now
    { cb with state := p.1, storage := p.2 }
  else
    let p := cb.state.success cb.storage now
    { cb with state := p.1, storage := p.2 }

/-- The observable outcome of one guarded call attempt: rejected by the
breaker-open exception before the body ran, or the body ran and raised e, or
the body ran and returned a. -/
inductive CallOutcome (ε α : Type) where
  | rejected
  | raised (e : ε)
  | returned (a : α)
deriving DecidableEq

/-- One guarded call through the scoped-block shape (with cb: body), entered
at nowE and exited at nowX: __enter__, then the body, then __exit__; a
rejected attempt never runs the body and never touches success/failure. -/
def CircuitBreaker.with_block {ε α : Type} (cb : CircuitBreaker) (nowE nowX : Nat)
    (body : Except ε α) : CircuitBreaker × CallOutcome ε α :=
  let p := cb.enter nowE
  if p.2 then (p.1, CallOutcome.rejected)
  else
    match body with
    | Except.ok a => (p.1.exit nowX false, CallOutcome.returned a)
    | Except.error e => (p.1.exit nowX true, CallOutcome.raised e)

/-- CircuitBreaker.__call__ (main.py, lines 195-201): applying the breaker to
a function runs the admission check once, at decoration time; the Bool is
whether CircuitBreakerException is raised there. -/
def CircuitBreaker.call (cb : CircuitBreaker) (now : Nat) : CircuitBreaker × Bool :=
  let p := cb.state.next_state cb.storage now
  ({ cb with state := p.1, storage := p.2 }, p.1.is_open)

/-- The inner decorator returned by CircuitBreaker.__call__ (main.py, lines
216-225): each invocation runs the wrapped function and feeds the outcome to
success or failure; it performs no admission check of its own. -/
def CircuitBreaker.decorator {ε α : Type} (cb : CircuitBreaker) (now : Nat)
    (body : Except ε α) : CircuitBreaker × CallOutcome ε α :=
  match body with
  | Except.ok a =>
    let p := cb.state.success cb.storage now
    ({ cb with state := p.1, storage := p.2 }, CallOutcome.returned a)
  | Except.error e =>
    let p := cb.state.failure cb.storage now
    ({ cb with state := p.1, storage := p.2 }, CallOutcome.raised e)

/-- A sequence of failing guarded calls through the scoped-block shape, one
at each listed instant (entered and exited at that instant). -/
def failing_run (cb : CircuitBreaker) : List Nat → CircuitBreaker
  | [] => cb
  | t :: ts =>
    failing_run (cb.with_block t t (Except.error () : Except Unit Unit)).1 ts

/-- Python object identity of MemoryStorage instances: a heap of storage
objects addressed by id. Only the factory claims need aliasing; everything
else threads a single store by value. -/
structure Heap where
  store : Nat → MemoryStorage

/-- Overwrite the storage object at id i. -/
def Heap.update (h : Heap) (i : Nat) (s : MemoryStorage) : Heap :=
  { store := fun j => if j = i then s else h.store j }

/-- The id of the single MemoryStorage() instance created when the dataclass
field default of CircuitBreakerFactory.storage (main.py, line 264) is
evaluated, once, at class-definition time. -/
def class_default_storage_id : Nat := 0

/-- CircuitBreakerFactory (main.py, lines 262-267): holds a reference to a
storage object (by id), an initial state tag, and the default policy. -/
structure CircuitBreakerFactory where
  storage : Nat
  state : State
  threshold : Nat
  timeout : Nat

/-- CircuitBreakerFactory(state=..., threshold=..., timeout=...) constructed
without an explicit storage argument: dataclass defaults are evaluated once
at class-definition time, so every such factory references the same
MemoryStorage instance, the one at class_default_storage_id. -/
def CircuitBreakerFactory.mk_default_storage (state : State) (threshold timeout : Nat) :
    CircuitBreakerFactory :=
  { storage := class_default_storage_id, state := state, threshold := threshold,
    timeout := timeout }

/-- A breaker produced by a factory: like CircuitBreaker but its storage
field is the id of the shared storage object in the heap. -/
structure BoundBreaker where
  name : String
  storage : Nat
  state : BaseState

/-- CircuitBreakerFactory.__call__ (main.py, lines 269-276): builds a
CircuitBreaker bound to the factory's storage object; constructing with an
OPEN initial tag arms the timer in that shared object. -/
def CircuitBreakerFactory.call (f : CircuitBreakerFactory) (h : Heap) (name : String)
    (now : Nat) : BoundBreaker × Heap :=
  let p := _get_state f.state name (h.store f.storage) f.timeout f.threshold now
  ({ name := name, storage := f.storage, state := p.1 }, h.update f.storage p.2)

/-- One guarded scoped-block call through a factory-produced breaker: reads
the storage object out of the heap, runs the call, writes it back. -/
def BoundBreaker.with_blockH {ε α : Type} (cb : BoundBreaker) (h : Heap) (nowE nowX : Nat)
    (body : Except ε α) : (BoundBreaker × CallOutcome ε α) × Heap :=
  let v : CircuitBreaker := { name := cb.name, storage := h.store cb.storage, state := cb.state }
  let p := v.with_block nowE nowX body
  (({ cb with state := p.1.state }, p.2), h.update cb.storage p.1.storage)

@[simp] lemma ms_new_failure (n : String) : MemoryStorage.new.failure_counter n = 0 := rfl

@[simp] lemma ms_new_success (n : String) : MemoryStorage.new.success_counter n = 0 := rfl

@[simp] lemma ms_new_timer (n : String) : MemoryStorage.new.timer n = none := rfl

@[simp] lemma ms_incf_failure (s : MemoryStorage) (m n : String) :
    (s.increment_failure_counter m).failure_counter n =
      if n = m then s.failure_counter n + 1 else s.failure_counter n := rfl

@[simp] lemma ms_incf_success (s : MemoryStorage) (m n : String) :
    (s.increment_failure_counter m).success_counter n = s.success_counter n := rfl

@[simp] lemma ms_incf_timer (s : MemoryStorage) (m n : String) :
    (s.increment_failure_counter m).timer n = s.timer n := rfl

@[simp] lemma ms_incs_failure (s : MemoryStorage) (m n : String) :
    (s.increment_success_counter m).failure_counter n = s.failure_counter n := rfl

@[simp] lemma ms_incs_success (s : MemoryStorage) (m n : String) :
    (s.increment_success_counter m).success_counter n =
      if n = m then s.success_counter n + 1 else s.success_counter n := rfl

@[simp] lemma ms_incs_timer (s : MemoryStorage) (m n : String) :
    (s.increment_success_counter m).timer n = s.timer n := rfl

@[simp] lemma ms_start_failure (s : MemoryStorage) (m n : String) (now : Nat) :
    (s.start_timeout_timer m now).failure_counter n = s.failure_counter n := rfl

@[simp] lemma ms_start_success (s : MemoryStorage) (m n : String) (now : Nat) :
    (s.start_timeout_timer m now).success_counter n = s.success_counter n := rfl

@[simp] lemma ms_start_timer (s : MemoryStorage) (m n : String) (now : Nat) :
    (s.start_timeout_timer m now).timer n = if n = m then some now else s.timer n := rfl

/-- One failing scoped-block call on a Closed breaker whose counter is below
threshold: admitted, counter bumped by one, and the state either stays
exactly the same (still below threshold) or trips to Open arming the timer. -/
lemma closed_failing_step (cb : CircuitBreaker) (t : Nat)
    (hS : cb.state.state = State.CLOSED)
    (hadm : cb.storage.failure_counter cb.state.name < cb.state.threshold) :
    (cb.with_block t t (Except.error () : Except Unit Unit)).2 = CallOutcome.raised ()
    ∧ (cb.with_block t t (Except.error () : Except Unit Unit)).1.name = cb.name
    ∧ (cb.with_block t t (Except.error () : Except Unit Unit)).1.state.name = cb.state.name
    ∧ (cb.with_block t t (Except.error () : Except Unit Unit)).1.state.timeout = cb.state.timeout
    ∧ (cb.with_block t t (Except.error () : Except Unit Unit)).1.state.threshold = cb.state.threshold
    ∧ (cb.with_block t t (Except.error () : Except Unit Unit)).1.storage.failure_counter cb.state.name
        = cb.storage.failure_counter cb.state.name + 1
    ∧ (∀ n, n ≠ cb.state.name →
        (cb.with_block t t (Except.error () : Except Unit Unit)).1.storage.failure_counter n
          = cb.storage.failure_counter n)
    ∧ (∀ n, (cb.with_block t t (Except.error () : Except Unit Unit)).1.storage.success_counter n
        = cb.storage.success_counter n)
    ∧ (cb.storage.failure_counter cb.state.name + 1 < cb.state.threshold →
        (cb.with_block t t (Except.error () : Except Unit Unit)).1.state = cb.state
        ∧ ∀ n, (cb.with_block t t (Except.error () : Except Unit Unit)).1.storage.timer n
            = cb.storage.timer n)
    ∧ (cb.state.threshold ≤ cb.storage.failure_counter cb.state.name + 1 →
        (cb.with_block t t (Except.error () : Except Unit Unit)).1.state.state = State.OPEN
        ∧ (cb.with_block t t (Except.error () : Except Unit Unit)).1.storage.timer cb.state.name
            = some t
        ∧ ∀ n, n ≠ cb.state.name →
            (cb.with_block t t (Except.error () : Except Unit Unit)).1.storage.timer n
              = cb.storage.timer n) := by
  obtain ⟨nm, stor, tag, snm, sto, sth⟩ := cb
  dsimp only at hS hadm ⊢
  subst hS
  replace hadm : stor.failure_map snm < sth := hadm
  by_cases h2 : sth ≤ stor.failure_map snm + 1
  all_goals
    simp [CircuitBreaker.with_block, CircuitBreaker.enter, CircuitBreaker.exit,
      BaseState.next_state, BaseState.failure, BaseState.is_open, OpenState, ClosedState,
      HalfOpenState, not_le_of_lt hadm, h2, MemoryStorage.failure_counter,
      MemoryStorage.increment_failure_counter, MemoryStorage.success_counter,
      MemoryStorage.timer, MemoryStorage.start_timeout_timer]
  all_goals exact fun n h1x h2x => absurd h2x h1x

/-- A run of failing calls that stays strictly below the threshold leaves the
state object untouched and only bumps the failure counter of its name. -/
lemma failing_run_below (ts : List Nat) (cb : CircuitBreaker)
    (hS : cb.state.state = State.CLOSED)
    (h : cb.storage.failure_counter cb.state.name + ts.length < cb.state.threshold) :
    (failing_run cb ts).name = cb.name
    ∧ (failing_run cb ts).state = cb.state
    ∧ (failing_run cb ts).storage.failure_counter cb.state.name
        = cb.storage.failure_counter cb.state.name + ts.length
    ∧ (∀ n, n ≠ cb.state.name →
        (failing_run cb ts).storage.failure_counter n = cb.storage.failure_counter n)
    ∧ (∀ n, (failing_run cb ts).storage.success_counter n = cb.storage.success_counter n)
    ∧ (∀ n, (failing_run cb ts).storage.timer n = cb.storage.timer n) := by
  induction ts generalizing cb with
  | nil => exact ⟨rfl, rfl, rfl, fun n _ => rfl, fun n => rfl, fun n => rfl⟩
  | cons t ts ih =>
    obtain ⟨-, hn, -, -, -, hfc, hfco, hsc, hbelow, -⟩ :=
      closed_failing_step cb t hS (by simp at h; omega)
    obtain ⟨hstate, htimer⟩ := hbelow (by simp at h; omega)
    have hS1 : (cb.with_block t t (Except.error () : Except Unit Unit)).1.state.state
        = State.CLOSED := by rw [hstate]; exact hS
    have h1 : (cb.with_block t t (Except.error () : Except Unit Unit)).1.storage.failure_counter
          (cb.with_block t t (Except.error () : Except Unit Unit)).1.state.name + ts.length
        < (cb.with_block t t (Except.error () : Except Unit Unit)).1.state.threshold := by
      rw [hstate, hfc]; simp at h; omega
    have ih' := ih (cb.with_block t t (Except.error () : Except Unit Unit)).1 hS1 h1
    rw [hstate] at ih'
    have hrun : failing_run cb (t :: ts)
        = failing_run (cb.with_block t t (Except.error () : Except Unit Unit)).1 ts := rfl
    rw [hrun]
    refine ⟨?_, ?_, ?_, ?_, ?_, ?_⟩
    · rw [ih'.1, hn]
    · rw [ih'.2.1]
    · rw [ih'.2.2.1, hfc]; simp only [List.length_cons]; omega
    · intro n hne
      rw [ih'.2.2.2.1 n hne, hfco n hne]
    · intro n
      rw [ih'.2.2.2.2.1 n, hsc n]
    · intro n
      rw [ih'.2.2.2.2.2 n, htimer n]

lemma failing_run_append (cb : CircuitBreaker) (xs ys : List Nat) :
    failing_run cb (xs ++ ys) = failing_run (failing_run cb xs) ys := by
  induction xs generalizing cb with
  | nil => rfl
  | cons x xs ih => simp only [List.cons_append, failing_run]; exact ih _

/-- A run of exactly threshold-many failing calls from Closed with counter
zero offset: the final call trips the breaker to Open and arms the timer with
the final call's instant. -/
lemma failing_run_trip (ts : List Nat) (tl : Nat) (cb : CircuitBreaker)
    (hS : cb.state.state = State.CLOSED)
    (h : cb.storage.failure_counter cb.state.name + ts.length + 1 = cb.state.threshold) :
    (failing_run cb (ts ++ [tl])).name = cb.name
    ∧ (failing_run cb (ts ++ [tl])).state.name = cb.state.name
    ∧ (failing_run cb (ts ++ [tl])).state.timeout = cb.state.timeout
    ∧ (failing_run cb (ts ++ [tl])).state.threshold = cb.state.threshold
    ∧ (failing_run cb (ts ++ [tl])).state.state = State.OPEN
    ∧ (failing_run cb (ts ++ [tl])).storage.failure_counter cb.state.name = cb.state.threshold
    ∧ (∀ n, (failing_run cb (ts ++ [tl])).storage.success_counter n
        = cb.storage.success_counter n)
    ∧ (failing_run cb (ts ++ [tl])).storage.timer cb.state.name = some tl := by
  have hbelow := failing_run_below ts cb hS (by omega)
  obtain ⟨hn, hstate, hfc, -, hsc, -⟩ := hbelow
  have hS1 : (failing_run cb ts).state.state = State.CLOSED := by rw [hstate]; exact hS
  have hadm : (failing_run cb ts).storage.failure_counter (failing_run cb ts).state.name
      < (failing_run cb ts).state.threshold := by rw [hstate, hfc]; omega
  obtain ⟨-, hn2, hsn2, hto2, hth2, hfc2, -, hsc2, -, htrip⟩ :=
    closed_failing_step (failing_run cb ts) tl hS1 hadm
  rw [hstate] at hsn2 hto2 hth2 hfc2 htrip
  rw [hn] at hn2
  obtain ⟨hopen, htimer, -⟩ := htrip (by rw [hfc]; omega)
  rw [failing_run_append cb ts [tl]]
  have hone : failing_run (failing_run cb ts)  [tl]
      = ((failing_run cb ts).with_block tl tl (Except.error () : Except Unit Unit)).1 := rfl
  rw [hone]
  refine ⟨hn2, hsn2, hto2, hth2, hopen, ?_, ?_, htimer⟩
  · rw [hfc2, hfc]; omega
  · intro n
    rw [hsc2 n, hsc n]

/-- next_state never touches a counter; it preserves the policy fields. -/
lemma next_state_frame (s : BaseState) (st : MemoryStorage) (now : Nat) :
    (s.next_state st now).1.name = s.name
    ∧ (s.next_state st now).1.threshold = s.threshold
    ∧ (s.next_state st now).1.timeout = s.timeout
    ∧ (∀ n, (s.next_state st now).2.failure_counter n = st.failure_counter n)
    ∧ (∀ n, (s.next_state st now).2.success_counter n = st.success_counter n) := by
  obtain ⟨tag, snm, sto, sth⟩ := s
  cases tag <;>
    simp only [BaseState.next_state, OpenState, ClosedState, HalfOpenState, MemoryStorage.timer]
  · rcases st.start_time snm with _ | tv
    · exact ⟨rfl, rfl, rfl, fun n => rfl, fun n => rfl⟩
    · dsimp only
      split_ifs <;> exact ⟨rfl, rfl, rfl, fun n => rfl, fun n => rfl⟩
  · split_ifs <;> simp
  · split_ifs <;> simp

/-- success: increments only the success counter of its own name, and only
while Half-Open; it never touches failure counters or timers. -/
lemma success_frame (s : BaseState) (st : MemoryStorage) (now : Nat) :
    (s.success st now).1.name = s.name
    ∧ (s.success st now).1.threshold = s.threshold
    ∧ (s.success st now).1.timeout = s.timeout
    ∧ (∀ n, (s.success st now).2.failure_counter n = st.failure_counter n)
    ∧ (∀ n, (s.success st now).2.success_counter n =
        if s.state = State.HALF_OPEN ∧ n = s.name then st.success_counter n + 1
        else st.success_counter n)
    ∧ (∀ n, (s.success st now).2.timer n = st.timer n) := by
  obtain ⟨tag, snm, sto, sth⟩ := s
  cases tag <;>
    simp only [BaseState.success, BaseState.next_state, OpenState, ClosedState, HalfOpenState,
      MemoryStorage.timer] <;> simp
  split_ifs <;> simp_all <;> exact fun n => rfl

/-- failure: increments only the failure counter of its own name, and only
while Closed; it never touches success counters. -/
lemma failure_frame (s : BaseState) (st : MemoryStorage) (now : Nat) :
    (s.failure st now).1.name = s.name
    ∧ (s.failure st now).1.threshold = s.threshold
    ∧ (s.failure st now).1.timeout = s.timeout
    ∧ (∀ n, (s.failure st now).2.failure_counter n =
        if s.state = State.CLOSED ∧ n = s.name then st.failure_counter n + 1
        else st.failure_counter n)
    ∧ (∀ n, (s.failure st now).2.success_counter n = st.success_counter n) := by
  obtain ⟨tag, snm, sto, sth⟩ := s
  cases tag <;>
    simp only [BaseState.failure, BaseState.next_state, OpenState, ClosedState, HalfOpenState,
      MemoryStorage.timer] <;> simp
  split_ifs <;> simp_all

/-- An admission attempt on an Open breaker whose timer is still within the
timeout window is rejected without running the body and changes nothing. -/
lemma open_within_step {ε α : Type} (cb : CircuitBreaker) (nE nX : Nat) (body : Except ε α)
    (hS : cb.state.state = State.OPEN) (T : Nat)
    (hT : cb.storage.timer cb.state.name = some T)
    (hwin : nE < T + cb.state.timeout) :
    (cb.with_block nE nX body).2 = CallOutcome.rejected
    ∧ (cb.with_block nE nX body).1.state = cb.state
    ∧ (cb.with_block nE nX body).1.storage = cb.storage
    ∧ (cb.with_block nE nX body).1.name = cb.name := by
  obtain ⟨nm, stor, tag, snm, sto, sth⟩ := cb
  dsimp only at hS hT hwin ⊢
  subst hS
  simp only [MemoryStorage.timer] at hT
  simp [CircuitBreaker.with_block, CircuitBreaker.enter, BaseState.next_state,
    BaseState.is_open, MemoryStorage.timer, hT, hwin]

/-- Full threshold-failure scenario from a Closed breaker with zero failure
count: counters climb one per failure, the breaker stays Closed for the first
threshold-1 failures, trips to Open on the last failure itself arming the
timer, and any admission attempt within the timeout window is rejected. -/
lemma c1_general (cb : CircuitBreaker) (ts : List Nat) (tl : Nat)
    (hS : cb.state.state = State.CLOSED)
    (hfc : cb.storage.failure_counter cb.state.name = 0)
    (hth : cb.state.threshold = ts.length + 1) :
    (∀ i, i ≤ ts.length + 1 →
      (failing_run cb ((ts ++ [tl]).take i)).storage.failure_counter cb.state.name = i)
    ∧ (failing_run cb ts).state.state = State.CLOSED
    ∧ (failing_run cb (ts ++ [tl])).state.state = State.OPEN
    ∧ (failing_run cb (ts ++ [tl])).storage.timer cb.state.name = some tl
    ∧ ∀ (now2 nowX : Nat) (body : Except Unit Unit), now2 < tl + cb.state.timeout →
        ((failing_run cb (ts ++ [tl])).with_block now2 nowX body).2 = CallOutcome.rejected
        ∧ ((failing_run cb (ts ++ [tl])).with_block now2 nowX body).1.state.state
            = State.OPEN := by
  obtain ⟨-, hsn, hto, hthr, hopen, hfcT, -, htimer⟩ := failing_run_trip ts tl cb hS (by omega)
  refine ⟨?_, ?_, hopen, htimer, ?_⟩
  · intro i hi
    rcases Nat.lt_or_ge i (ts.length + 1) with hlt | hge
    · have hile : i ≤ ts.length := by omega
      rw [List.take_append_of_le_length hile]
      have hb := failing_run_below (ts.take i) cb hS
        (by rw [hfc, hth, List.length_take]; omega)
      rw [hb.2.2.1, hfc, List.length_take]; omega
    · have hieq : i = ts.length + 1 := by omega
      subst hieq
      rw [List.take_of_length_le (by simp)]
      rw [hfcT, hth]
  · have hb := failing_run_below ts cb hS (by omega)
    rw [hb.2.1]; exact hS
  · intro now2 nowX body hwin
    have hop := open_within_step (failing_run cb (ts ++ [tl])) now2 nowX body hopen tl
      (by rw [hsn]; exact htimer) (by rw [hto]; exact hwin)
    exact ⟨hop.1, by rw [hop.2.1]; exact hopen⟩

/-- C1: for every breaker with a fresh store, threshold t = ts.length + 1 (so
t is at least 1), and the sequence ts ++ [tl] of t consecutive failing
guarded calls starting in Closed: each failure increments the failure
counter (after the first i calls it reads i), the state is still Closed after
the first t-1 failures and transitions to Open during the t-th failure
itself, the store timer is set to that failure's instant, and the next
admission attempt within the timeout window is rejected with the breaker-open
error without invoking the guarded operation. -/
theorem c1_threshold_failures_trip_open (nm : String) (timeout now0 : Nat)
    (ts : List Nat) (tl : Nat) :
    (∀ i, i ≤ ts.length + 1 →
      (failing_run (CircuitBreaker.init nm MemoryStorage.new State.CLOSED
          (ts.length + 1) timeout now0) ((ts ++ [tl]).take i)).storage.failure_counter nm = i)
    ∧ (failing_run (CircuitBreaker.init nm MemoryStorage.new State.CLOSED
        (ts.length + 1) timeout now0) ts).state.state = State.CLOSED
    ∧ (failing_run (CircuitBreaker.init nm MemoryStorage.new State.CLOSED
        (ts.length + 1) timeout now0) (ts ++ [tl])).state.state = State.OPEN
    ∧ (failing_run (CircuitBreaker.init nm MemoryStorage.new State.CLOSED
        (ts.length + 1) timeout now0) (ts ++ [tl])).storage.timer nm = some tl
    ∧ ∀ (now2 nowX : Nat) (body : Except Unit Unit), now2 < tl + timeout →
        ((failing_run (CircuitBreaker.init nm MemoryStorage.new State.CLOSED
            (ts.length + 1) timeout now0) (ts ++ [tl])).with_block now2 nowX body).2
          = CallOutcome.rejected
        ∧ ((failing_run (CircuitBreaker.init nm MemoryStorage.new State.CLOSED
            (ts.length + 1) timeout now0) (ts ++ [tl])).with_block now2 nowX body).1.state.state
          = State.OPEN :=
  c1_general (CircuitBreaker.init nm MemoryStorage.new State.CLOSED
    (ts.length + 1) timeout now0) ts tl rfl rfl rfl

/-- Concrete instance of C1: threshold 1, one failing call at instant 2,
admission attempt at instant 3 with timeout 5. -/
theorem c1_threshold_failures_trip_open_witness :
    (failing_run (CircuitBreaker.init "svc" MemoryStorage.new State.CLOSED
        ((List.nil : List Nat).length + 1) 5 0) (([] : List Nat) ++ [2])).state.state = State.OPEN
    ∧ (failing_run (CircuitBreaker.init "svc" MemoryStorage.new State.CLOSED
        ((List.nil : List Nat).length + 1) 5 0)
        ((([] : List Nat) ++ [2]).take 1)).storage.failure_counter "svc" = 1
    ∧ ((failing_run (CircuitBreaker.init "svc" MemoryStorage.new State.CLOSED
        ((List.nil : List Nat).length + 1) 5 0) (([] : List Nat) ++ [2])).with_block 3 3
        (Except.ok () : Except Unit Unit)).2 = CallOutcome.rejected := by
  have h := c1_threshold_failures_trip_open "svc" 5 0 [] 2
  exact ⟨h.2.2.1, h.1 1 (by omega), (h.2.2.2.2 3 3 (Except.ok ()) (by omega)).1⟩

/-- C2 counterexample: with threshold 1 and timeout 9, wrap a function once
while Closed (admitted), invoke it once with a failure so the breaker trips
to Open, the timer armed at instant 0. A further invocation of the
already-wrapped function at instant 5 - strictly inside the open window,
since timer 0 + timeout 9 > 5 keeps next_state at Open - still runs the
guarded function: a failing body surfaces its own error (outcome raised, not
the breaker-open rejection) and a succeeding body returns its value, where
the claimed per-invocation admission protocol requires the attempt to fail
with the breaker-open error without invoking the guarded function. -/
theorem c2_counterexample :
    (((CircuitBreaker.init "svc" MemoryStorage.new State.CLOSED 1 9 0).call 0).2 = false)
    ∧ ((((CircuitBreaker.init "svc" MemoryStorage.new State.CLOSED 1 9 0).call 0).1.decorator 0
        (Except.error () : Except Unit Unit)).1.state.state = State.OPEN)
    ∧ ((((CircuitBreaker.init "svc" MemoryStorage.new State.CLOSED 1 9 0).call 0).1.decorator 0
        (Except.error () : Except Unit Unit)).1.storage.timer "svc" = some 0)
    ∧ (((((CircuitBreaker.init "svc" MemoryStorage.new State.CLOSED 1 9 0).call 0).1.decorator 0
        (Except.error () : Except Unit Unit)).1.decorator 5
        (Except.error () : Except Unit Unit)).2 = CallOutcome.raised ())
    ∧ (((((CircuitBreaker.init "svc" MemoryStorage.new State.CLOSED 1 9 0).call 0).1.decorator 0
        (Except.error () : Except Unit Unit)).1.decorator 5
        (Except.ok () : Except Unit Unit)).2 = CallOutcome.returned ()) := by
  decide

/-- C2 amended: for the direct-call wrapping shape, the admission protocol
steps 1-2 run once, at wrap time: applying the breaker to a function advances
currentState via next_state, raises the breaker-open error exactly when the
advanced state is Open, and touches no counter. Each invocation of the
returned wrapper performs only the execute-and-record steps: it always runs
the wrapped function (its outcome is returned/raised, never a breaker-open
rejection) and feeds the outcome to success or failure. -/
theorem c2_direct_call_admission_at_wrap_time (cb : CircuitBreaker) (now : Nat) :
    ((cb.call now).1.state = (cb.state.next_state cb.storage now).1
      ∧ (cb.call now).2 = (cb.state.next_state cb.storage now).1.is_open
      ∧ ∀ n, (cb.call now).1.storage.failure_counter n = cb.storage.failure_counter n
          ∧ (cb.call now).1.storage.success_counter n = cb.storage.success_counter n)
    ∧ (∀ (ε α : Type) (e : ε),
        (cb.decorator now (Except.error e : Except ε α)).2 = CallOutcome.raised e
        ∧ (cb.decorator now (Except.error e : Except ε α)).1.state
            = (cb.state.failure cb.storage now).1)
    ∧ (∀ (ε α : Type) (a : α),
        (cb.decorator now (Except.ok a : Except ε α)).2 = CallOutcome.returned a
        ∧ (cb.decorator now (Except.ok a : Except ε α)).1.state
            = (cb.state.success cb.storage now).1) := by
  have hns := next_state_frame cb.state cb.storage now
  exact ⟨⟨rfl, rfl, fun n => ⟨hns.2.2.2.1 n, hns.2.2.2.2 n⟩⟩,
    fun ε α e => ⟨rfl, rfl⟩, fun ε α a => ⟨rfl, rfl⟩⟩

/-- An admission attempt on an Open breaker whose timeout window has passed
(timer + timeout is at most the attempt's instant) advances to Half-Open and
admits the call; a successful body then bumps the success counter and stays
Half-Open while the new count is below threshold. -/
lemma open_expired_success_step (cb : CircuitBreaker) (nE nX : Nat)
    (hS : cb.state.state = State.OPEN) (T : Nat)
    (hT : cb.storage.timer cb.state.name = some T)
    (hexp : T + cb.state.timeout ≤ nE)
    (hsc : cb.storage.success_counter cb.state.name + 1 < cb.state.threshold) :
    ((cb.with_block nE nX (Except.ok () : Except Unit Unit)).2 = CallOutcome.returned ())
    ∧ ((cb.with_block nE nX (Except.ok () : Except Unit Unit)).1.state.state = State.HALF_OPEN)
    ∧ ((cb.with_block nE nX (Except.ok () : Except Unit Unit)).1.storage.success_counter
        cb.state.name = cb.storage.success_counter cb.state.name + 1)
    ∧ (∀ n, (cb.with_block nE nX (Except.ok () : Except Unit Unit)).1.storage.failure_counter n
        = cb.storage.failure_counter n)
    ∧ (∀ n, (cb.with_block nE nX (Except.ok () : Except Unit Unit)).1.storage.timer n
        = cb.storage.timer n) := by
  obtain ⟨nm, stor, tag, snm, sto, sth⟩ := cb
  dsimp only at hS hT hexp hsc ⊢
  subst hS
  simp only [MemoryStorage.timer] at hT
  simp only [MemoryStorage.success_counter] at hsc
  simp [CircuitBreaker.with_block, CircuitBreaker.enter, CircuitBreaker.exit,
    BaseState.next_state, BaseState.success, BaseState.is_open, HalfOpenState,
    MemoryStorage.timer, MemoryStorage.success_counter, MemoryStorage.failure_counter,
    MemoryStorage.increment_success_counter, hT, Nat.not_lt.mpr hexp, Nat.not_le.mpr hsc,
    not_le_of_lt (by omega : stor.success_map snm < sth)]

/-- C3 counterexample: threshold 5, timeout 0, five failing guarded calls all
at instant 0. The state is then Open with timer set and failure counter 5,
but a 6th attempt still within the same instant 0 is admitted (the body runs
and its value is returned) instead of raising the breaker-open rejection:
with timeout 0 the open window timer + 0 > now is already closed. -/
theorem c3_counterexample :
    ((failing_run (CircuitBreaker.init "svc" MemoryStorage.new State.CLOSED 5 0 0)
        [0, 0, 0, 0, 0]).state.state = State.OPEN)
    ∧ ((failing_run (CircuitBreaker.init "svc" MemoryStorage.new State.CLOSED 5 0 0)
        [0, 0, 0, 0, 0]).storage.timer "svc" = some 0)
    ∧ ((failing_run (CircuitBreaker.init "svc" MemoryStorage.new State.CLOSED 5 0 0)
        [0, 0, 0, 0, 0]).storage.failure_counter "svc" = 5)
    ∧ (((failing_run (CircuitBreaker.init "svc" MemoryStorage.new State.CLOSED 5 0 0)
        [0, 0, 0, 0, 0]).with_block 0 0 (Except.ok () : Except Unit Unit)).2
        = CallOutcome.returned ()) := by
  decide

/-- C3 amended: with threshold 5 and timeout 0, after five failing guarded
calls the state is Open with the timer set to the 5th failure's instant and
counters reading failure 5, success 0; but because the open window is empty
with timeout 0, already the 6th attempt (at any instant not before the 5th
failure, including the same instant) transitions to Half-Open and admits the
call, and a success on it increments the success counter to 1 and stays
Half-Open. -/
theorem c3_timeout_zero_scenario (nm : String) (now0 a b c d e now6 nX : Nat)
    (h6 : e ≤ now6) :
    ((failing_run (CircuitBreaker.init nm MemoryStorage.new State.CLOSED 5 0 now0)
        ([a, b, c, d] ++ [e])).state.state = State.OPEN)
    ∧ ((failing_run (CircuitBreaker.init nm MemoryStorage.new State.CLOSED 5 0 now0)
        ([a, b, c, d] ++ [e])).storage.timer nm = some e)
    ∧ ((failing_run (CircuitBreaker.init nm MemoryStorage.new State.CLOSED 5 0 now0)
        ([a, b, c, d] ++ [e])).storage.failure_counter nm = 5)
    ∧ ((failing_run (CircuitBreaker.init nm MemoryStorage.new State.CLOSED 5 0 now0)
        ([a, b, c, d] ++ [e])).storage.success_counter nm = 0)
    ∧ (((failing_run (CircuitBreaker.init nm MemoryStorage.new State.CLOSED 5 0 now0)
        ([a, b, c, d] ++ [e])).with_block now6 nX (Except.ok () : Except Unit Unit)).2
        = CallOutcome.returned ())
    ∧ (((failing_run (CircuitBreaker.init nm MemoryStorage.new State.CLOSED 5 0 now0)
        ([a, b, c, d] ++ [e])).with_block now6 nX (Except.ok () : Except Unit Unit)).1.state.state
        = State.HALF_OPEN)
    ∧ (((failing_run (CircuitBreaker.init nm MemoryStorage.new State.CLOSED 5 0 now0)
        ([a, b, c, d] ++ [e])).with_block now6 nX (Except.ok () : Except Unit Unit)).1.storage.success_counter
        nm = 1)
    ∧ (((failing_run (CircuitBreaker.init nm MemoryStorage.new State.CLOSED 5 0 now0)
        ([a, b, c, d] ++ [e])).with_block now6 nX (Except.ok () : Except Unit Unit)).1.storage.failure_counter
        nm = 5) := by
  obtain ⟨-, hsn, hto, hthr, hopen, hfcT, hscT, htimer⟩ :=
    failing_run_trip [a, b, c, d] e
      (CircuitBreaker.init nm MemoryStorage.new State.CLOSED 5 0 now0) rfl rfl
  have hsn' : (failing_run (CircuitBreaker.init nm MemoryStorage.new State.CLOSED 5 0 now0)
      ([a, b, c, d] ++ [e])).state.name = nm := hsn
  have hstep := open_expired_success_step
    (failing_run (CircuitBreaker.init nm MemoryStorage.new State.CLOSED 5 0 now0)
      ([a, b, c, d] ++ [e])) now6 nX hopen e
    (by rw [hsn']; exact htimer)
    (by rw [hto]; simpa using h6)
    (by rw [hsn', hthr, hscT]; exact (by decide : (0:Nat) + 1 < 5))
  refine ⟨hopen, htimer, hfcT, hscT nm, hstep.1, hstep.2.1, ?_, ?_⟩
  · have h1 := hstep.2.2.1
    rw [hsn'] at h1
    rw [h1, hscT]
    exact rfl
  · rw [hstep.2.2.2.1 nm]
    exact hfcT

/-- Concrete instance of the amended C3 scenario, all five failures and the
6th attempt at instant 0. -/
theorem c3_timeout_zero_scenario_witness :
    (((failing_run (CircuitBreaker.init "svc" MemoryStorage.new State.CLOSED 5 0 0)
        ([0, 0, 0, 0] ++ [0])).with_block 0 1 (Except.ok () : Except Unit Unit)).2
        = CallOutcome.returned ())
    ∧ (((failing_run (CircuitBreaker.init "svc" MemoryStorage.new State.CLOSED 5 0 0)
        ([0, 0, 0, 0] ++ [0])).with_block 0 1 (Except.ok () : Except Unit Unit)).1.state.state
        = State.HALF_OPEN)
    ∧ (((failing_run (CircuitBreaker.init "svc" MemoryStorage.new State.CLOSED 5 0 0)
        ([0, 0, 0, 0] ++ [0])).with_block 0 1 (Except.ok () : Except Unit Unit)).1.storage.success_counter
        "svc" = 1) := by
  have h := c3_timeout_zero_scenario "svc" 0 0 0 0 0 0 0 1 (Nat.le_refl 0)
  exact ⟨h.2.2.2.2.1, h.2.2.2.2.2.1, h.2.2.2.2.2.2.1⟩

/-- C4 counterexample: a Closed state whose stored failure counter (1) has
reached its threshold (1). Calling next_state alone writes the store: the
timer for the name goes from none to some 7, because the freshly constructed
Open state arms the timer. So next_state is not side-effect-free. -/
theorem c4_counterexample :
    (((ClosedState "svc" 60 1).next_state
        (MemoryStorage.new.increment_failure_counter "svc") 7).2.timer "svc" = some 7)
    ∧ ((MemoryStorage.new.increment_failure_counter "svc").timer "svc" = none) := by
  decide

/-- C4 amended: calling next_state twice in a row at the same instant with no
intervening success/failure yields the same resulting state both times, and
next_state reads the store without mutating it except in one case: a Closed
state whose failure counter has reached threshold constructs an Open state,
which arms the store timer as its construction side effect. -/
theorem c4_next_state_repeatable_and_read_only (s : BaseState) (st : MemoryStorage)
    (now : Nat) :
    ((s.next_state (s.next_state st now).2 now).1 = (s.next_state st now).1)
    ∧ ((s.next_state st now).2
        = if s.state = State.CLOSED ∧ s.threshold ≤ st.failure_counter s.name
          then st.start_timeout_timer s.name now
          else st) := by
  obtain ⟨tag, snm, sto, sth⟩ := s
  cases tag
  · simp only [BaseState.next_state, MemoryStorage.timer, HalfOpenState]
    rw [if_neg (by simp)]
    rcases hsto : st.start_time snm with _ | tv
    · simp [hsto]
    · dsimp only
      split_ifs with h1 <;> simp [hsto, h1]
  · simp only [BaseState.next_state, MemoryStorage.failure_counter, OpenState, ClosedState]
    split_ifs with h1 <;> simp_all [MemoryStorage.failure_counter,
      MemoryStorage.start_timeout_timer]
  · simp only [BaseState.next_state, MemoryStorage.success_counter, ClosedState, HalfOpenState]
    split_ifs with h1 <;> simp_all [MemoryStorage.success_counter]

/-- C5 counterexample: a breaker constructed in Half-Open with threshold 2
over a store whose success counter for its name was already driven to 2. A
single failing guarded call does not end Open: the admission check first
moves Half-Open to Closed (success counter at threshold), the failure is then
processed by the Closed state, and the failure counter changes from 0 to 1,
with the final state Closed. -/
theorem c5_counterexample :
    ((CircuitBreaker.init "svc"
        ((MemoryStorage.new.increment_success_counter "svc").increment_success_counter "svc")
        State.HALF_OPEN 2 60 0).state.state = State.HALF_OPEN)
    ∧ (((CircuitBreaker.init "svc"
        ((MemoryStorage.new.increment_success_counter "svc").increment_success_counter "svc")
        State.HALF_OPEN 2 60 0).with_block 0 1 (Except.error () : Except Unit Unit)).1.state.state
        = State.CLOSED)
    ∧ (((CircuitBreaker.init "svc"
        ((MemoryStorage.new.increment_success_counter "svc").increment_success_counter "svc")
        State.HALF_OPEN 2 60 0).with_block 0 1 (Except.error () : Except Unit Unit)).1.storage.failure_counter
        "svc" = 1)
    ∧ ((CircuitBreaker.init "svc"
        ((MemoryStorage.new.increment_success_counter "svc").increment_success_counter "svc")
        State.HALF_OPEN 2 60 0).storage.failure_counter "svc" = 0) := by
  decide

/-- C5 amended: for a breaker currently Half-Open whose stored success
counter is below threshold, a single failing guarded call is admitted,
transitions directly to Open re-arming the store timer with the failure's
instant, and leaves every failure and success counter unchanged. -/
theorem c5_halfopen_failure_reopens {ε α : Type} (cb : CircuitBreaker) (nE nX : Nat) (e : ε)
    (hS : cb.state.state = State.HALF_OPEN)
    (hsc : cb.storage.success_counter cb.state.name < cb.state.threshold) :
    ((cb.with_block nE nX (Except.error e : Except ε α)).2 = CallOutcome.raised e)
    ∧ ((cb.with_block nE nX (Except.error e : Except ε α)).1.state.state = State.OPEN)
    ∧ ((cb.with_block nE nX (Except.error e : Except ε α)).1.storage.timer cb.state.name
        = some nX)
    ∧ (∀ n, (cb.with_block nE nX (Except.error e : Except ε α)).1.storage.failure_counter n
        = cb.storage.failure_counter n)
    ∧ (∀ n, (cb.with_block nE nX (Except.error e : Except ε α)).1.storage.success_counter n
        = cb.storage.success_counter n) := by
  obtain ⟨nm, stor, tag, snm, sto, sth⟩ := cb
  dsimp only at hS hsc ⊢
  subst hS
  replace hsc : stor.success_map snm < sth := hsc
  simp [CircuitBreaker.with_block, CircuitBreaker.enter, CircuitBreaker.exit,
    BaseState.next_state, BaseState.failure, BaseState.is_open, OpenState, HalfOpenState,
    MemoryStorage.timer, MemoryStorage.success_counter, MemoryStorage.failure_counter,
    MemoryStorage.start_timeout_timer, not_le_of_lt hsc]

/-- Concrete instance of the amended C5: fresh store, Half-Open, threshold 5;
one failing call at instants 3/4 reopens the breaker arming the timer at 4. -/
theorem c5_halfopen_failure_reopens_witness :
    (((CircuitBreaker.init "svc" MemoryStorage.new State.HALF_OPEN 5 60 0).with_block 3 4
        (Except.error () : Except Unit Unit)).1.state.state = State.OPEN)
    ∧ (((CircuitBreaker.init "svc" MemoryStorage.new State.HALF_OPEN 5 60 0).with_block 3 4
        (Except.error () : Except Unit Unit)).1.storage.timer "svc" = some 4)
    ∧ (((CircuitBreaker.init "svc" MemoryStorage.new State.HALF_OPEN 5 60 0).with_block 3 4
        (Except.error () : Except Unit Unit)).1.storage.failure_counter "svc" = 0) := by
  have h := @c5_halfopen_failure_reopens Unit Unit
    (CircuitBreaker.init "svc" MemoryStorage.new State.HALF_OPEN 5 60 0) 3 4 ()
    rfl (by decide)
  exact ⟨h.2.1, h.2.2.1, (h.2.2.2.1 "svc").trans rfl⟩

/-- C6: while Half-Open with the stored success counter below threshold, a
successful guarded call is admitted, increments the success counter, and
transitions to Closed within that same call exactly when the incremented
counter reaches threshold, staying Half-Open when it is still strictly
smaller; failure counters and timers are untouched. -/
theorem c6_halfopen_success_closes_at_threshold (cb : CircuitBreaker) (nE nX : Nat)
    (hS : cb.state.state = State.HALF_OPEN)
    (hsc : cb.storage.success_counter cb.state.name < cb.state.threshold) :
    ((cb.with_block nE nX (Except.ok () : Except Unit Unit)).2 = CallOutcome.returned ())
    ∧ ((cb.with_block nE nX (Except.ok () : Except Unit Unit)).1.storage.success_counter
        cb.state.name = cb.storage.success_counter cb.state.name + 1)
    ∧ ((cb.with_block nE nX (Except.ok () : Except Unit Unit)).1.state.state
        = if cb.state.threshold ≤ cb.storage.success_counter cb.state.name + 1
          then State.CLOSED else State.HALF_OPEN)
    ∧ (∀ n, (cb.with_block nE nX (Except.ok () : Except Unit Unit)).1.storage.failure_counter n
        = cb.storage.failure_counter n)
    ∧ (∀ n, (cb.with_block nE nX (Except.ok () : Except Unit Unit)).1.storage.timer n
        = cb.storage.timer n) := by
  obtain ⟨nm, stor, tag, snm, sto, sth⟩ := cb
  dsimp only at hS hsc ⊢
  subst hS
  replace hsc : stor.success_map snm < sth := hsc
  by_cases h2 : sth ≤ stor.success_map snm + 1
  all_goals
    simp [CircuitBreaker.with_block, CircuitBreaker.enter, CircuitBreaker.exit,
      BaseState.next_state, BaseState.success, BaseState.is_open, ClosedState, HalfOpenState,
      MemoryStorage.timer, MemoryStorage.success_counter, MemoryStorage.failure_counter,
      MemoryStorage.increment_success_counter, not_le_of_lt hsc, h2]

/-- Concrete instance of C6: fresh store, Half-Open, threshold 1; one
successful call increments the counter to 1 and closes the breaker. -/
theorem c6_halfopen_success_closes_at_threshold_witness :
    (((CircuitBreaker.init "svc" MemoryStorage.new State.HALF_OPEN 1 60 0).with_block 3 4
        (Except.ok () : Except Unit Unit)).1.storage.success_counter "svc" = 1)
    ∧ (((CircuitBreaker.init "svc" MemoryStorage.new State.HALF_OPEN 1 60 0).with_block 3 4
        (Except.ok () : Except Unit Unit)).1.state.state = State.CLOSED) := by
  have h := c6_halfopen_success_closes_at_threshold
    (CircuitBreaker.init "svc" MemoryStorage.new State.HALF_OPEN 1 60 0) 3 4
    rfl (by decide)
  refine ⟨(h.2.1).trans rfl, (h.2.2.1).trans ?_⟩
  decide

/-- C7: when an admitted guarded call raises an error e, both the
scoped-block shape and the decorator shape feed the outcome to failure (the
resulting current state is the failure-result of the state that ran the
call) and surface that same e to the caller, never the breaker-open
rejection and never a different value. -/
theorem c7_guarded_error_propagated_unchanged (ε α : Type) (cb : CircuitBreaker)
    (nE nX now : Nat) (e : ε)
    (hadm : (cb.state.next_state cb.storage nE).1.is_open = false) :
    ((cb.with_block nE nX (Except.error e : Except ε α)).2 = CallOutcome.raised e)
    ∧ ((cb.with_block nE nX (Except.error e : Except ε α)).1.state
        = ((cb.state.next_state cb.storage nE).1.failure
            (cb.state.next_state cb.storage nE).2 nX).1)
    ∧ ((cb.decorator now (Except.error e : Except ε α)).2 = CallOutcome.raised e)
    ∧ ((cb.decorator now (Except.error e : Except ε α)).1.state
        = (cb.state.failure cb.storage now).1) := by
  refine ⟨?_, ?_, rfl, rfl⟩ <;>
    simp [CircuitBreaker.with_block, CircuitBreaker.enter, CircuitBreaker.exit, hadm]

/-- Concrete instance of C7: an admitted failing call through a fresh Closed
breaker raises the original error value 42 in both call shapes. -/
theorem c7_guarded_error_propagated_unchanged_witness :
    (((CircuitBreaker.init "svc" MemoryStorage.new State.CLOSED 5 60 0).with_block 1 2
        (Except.error 42 : Except Nat Unit)).2 = CallOutcome.raised 42)
    ∧ (((CircuitBreaker.init "svc" MemoryStorage.new State.CLOSED 5 60 0).decorator 1
        (Except.error 42 : Except Nat Unit)).2 = CallOutcome.raised 42) := by
  have h := c7_guarded_error_propagated_unchanged Nat Unit
    (CircuitBreaker.init "svc" MemoryStorage.new State.CLOSED 5 60 0) 1 2 1 42 (by decide)
  exact ⟨h.1, h.2.2.1⟩

/-- C8: for every state object and store, none of the state-machine
operations (next_state, success, failure, and Open-state construction) ever
decreases or clears a stored counter of any name: next_state and Open
construction leave every counter exactly unchanged, success adds exactly one
to the success counter of the state's own name exactly when the state is
Half-Open and changes nothing else, and failure adds exactly one to the
failure counter of the state's own name exactly when the state is Closed and
changes nothing else; in particular no transition resets a counter. -/
theorem c8_counters_never_reset (s : BaseState) (st : MemoryStorage) (now : Nat)
    (n : String) :
    ((s.next_state st now).2.failure_counter n = st.failure_counter n)
    ∧ ((s.next_state st now).2.success_counter n = st.success_counter n)
    ∧ ((s.success st now).2.failure_counter n = st.failure_counter n)
    ∧ ((s.success st now).2.success_counter n
        = if s.state = State.HALF_OPEN ∧ n = s.name
          then st.success_counter n + 1 else st.success_counter n)
    ∧ ((s.failure st now).2.failure_counter n
        = if s.state = State.CLOSED ∧ n = s.name
          then st.failure_counter n + 1 else st.failure_counter n)
    ∧ ((s.failure st now).2.success_counter n = st.success_counter n)
    ∧ ((OpenState s.name st s.timeout s.threshold now).2.failure_counter n
        = st.failure_counter n)
    ∧ ((OpenState s.name st s.timeout s.threshold now).2.success_counter n
        = st.success_counter n) := by
  have h1 := next_state_frame s st now
  have h2 := success_frame s st now
  have h3 := failure_frame s st now
  exact ⟨h1.2.2.2.1 n, h1.2.2.2.2 n, h2.2.2.2.1 n, h2.2.2.2.2.1 n, h3.2.2.2.1 n,
    h3.2.2.2.2 n, rfl, rfl⟩

/-- Frame facts for one guarded scoped-block call: the state object keeps its
name, threshold and timeout, and no counter of any name decreases. -/
lemma with_block_frame {ε α : Type} (cb : CircuitBreaker) (nE nX : Nat)
    (body : Except ε α) :
    ((cb.with_block nE nX body).1.state.name = cb.state.name)
    ∧ ((cb.with_block nE nX body).1.state.threshold = cb.state.threshold)
    ∧ ((cb.with_block nE nX body).1.state.timeout = cb.state.timeout)
    ∧ (∀ n, cb.storage.failure_counter n
        ≤ (cb.with_block nE nX body).1.storage.failure_counter n)
    ∧ (∀ n, cb.storage.success_counter n
        ≤ (cb.with_block nE nX body).1.storage.success_counter n) := by
  have hns := next_state_frame cb.state cb.storage nE
  by_cases hb : (cb.enter nE).2 = true
  · simp only [CircuitBreaker.with_block, hb, if_true]
    exact ⟨hns.1, hns.2.1, hns.2.2.1,
      fun n => le_of_eq (hns.2.2.2.1 n).symm,
      fun n => le_of_eq (hns.2.2.2.2 n).symm⟩
  · simp only [CircuitBreaker.with_block, hb, if_false, Bool.not_eq_true] at *
    cases body with
    | ok a =>
      have hsf := success_frame (cb.state.next_state cb.storage nE).1
        (cb.state.next_state cb.storage nE).2 nX
      simp only [hb, Bool.false_eq_true, if_false]
      refine ⟨?_, ?_, ?_, ?_, ?_⟩
      · exact (hsf.1).trans hns.1
      · exact (hsf.2.1).trans hns.2.1
      · exact (hsf.2.2.1).trans hns.2.2.1
      · intro n
        rw [show ((cb.enter nE).1.exit nX false).storage.failure_counter n
            = (cb.state.next_state cb.storage nE).2.failure_counter n
            from hsf.2.2.2.1 n, hns.2.2.2.1 n]
      · intro n
        rw [show ((cb.enter nE).1.exit nX false).storage.success_counter n
            = _ from hsf.2.2.2.2.1 n]
        rw [hns.2.2.2.2 n]
        split_ifs <;> omega
    | error e =>
      have hff := failure_frame (cb.state.next_state cb.storage nE).1
        (cb.state.next_state cb.storage nE).2 nX
      simp only [hb, Bool.false_eq_true, if_false]
      refine ⟨?_, ?_, ?_, ?_, ?_⟩
      · exact (hff.1).trans hns.1
      · exact (hff.2.1).trans hns.2.1
      · exact (hff.2.2.1).trans hns.2.2.1
      · intro n
        rw [show ((cb.enter nE).1.exit nX true).storage.failure_counter n
            = _ from hff.2.2.2.1 n]
        rw [hns.2.2.2.1 n]
        split_ifs <;> omega
      · intro n
        rw [show ((cb.enter nE).1.exit nX true).storage.success_counter n
            = (cb.state.next_state cb.storage nE).2.success_counter n
            from hff.2.2.2.2 n, hns.2.2.2.2 n]

/-- An admission attempt from a Closed state whose stored failure counter has
reached threshold is rejected: the admission check itself constructs the Open
state (arming the timer with the attempt's instant) and raises. -/
lemma closed_tripped_step {ε α : Type} (cb : CircuitBreaker) (nE nX : Nat)
    (body : Except ε α)
    (hS : cb.state.state = State.CLOSED)
    (htr : cb.state.threshold ≤ cb.storage.failure_counter cb.state.name) :
    ((cb.with_block nE nX body).2 = CallOutcome.rejected)
    ∧ ((cb.with_block nE nX body).1.state.state = State.OPEN)
    ∧ ((cb.with_block nE nX body).1.storage.timer cb.state.name = some nE) := by
  obtain ⟨nm, stor, tag, snm, sto, sth⟩ := cb
  dsimp only at hS htr ⊢
  subst hS
  replace htr : sth ≤ stor.failure_map snm := htr
  simp [CircuitBreaker.with_block, CircuitBreaker.enter, BaseState.next_state,
    BaseState.is_open, OpenState, MemoryStorage.failure_counter, MemoryStorage.timer,
    MemoryStorage.start_timeout_timer, htr]

/-- C9: once the stored failure counter of the breaker's name has reached its
threshold, an admission attempt made from a Closed state transitions straight
back to Open and rejects the call; and any guarded call preserves the state's
name and threshold and never decreases the failure counter, so the condition
persists: every later admission check from Closed rejects as well, and after
a recovery cycle only the Half-Open trial admissions remain possible. -/
theorem c9_tripped_closed_never_admits (cb : CircuitBreaker) (nE nX : Nat)
    (body : Except Unit Unit) :
    (cb.state.state = State.CLOSED →
      cb.state.threshold ≤ cb.storage.failure_counter cb.state.name →
        (cb.with_block nE nX body).2 = CallOutcome.rejected
        ∧ (cb.with_block nE nX body).1.state.state = State.OPEN)
    ∧ ((cb.with_block nE nX body).1.state.name = cb.state.name)
    ∧ ((cb.with_block nE nX body).1.state.threshold = cb.state.threshold)
    ∧ (∀ n, cb.storage.failure_counter n
        ≤ (cb.with_block nE nX body).1.storage.failure_counter n) := by
  have hfr := with_block_frame cb nE nX body
  refine ⟨?_, hfr.1, hfr.2.1, hfr.2.2.2.1⟩
  intro hS htr
  have h := closed_tripped_step cb nE nX body hS htr
  exact ⟨h.1, h.2.1⟩

/-- Concrete instance of C9: threshold 1 already reached (counter 1) while
Closed; the admission attempt is rejected and the state is Open. -/
theorem c9_tripped_closed_never_admits_witness :
    (((CircuitBreaker.init "svc" (MemoryStorage.new.increment_failure_counter "svc")
        State.CLOSED 1 60 0).with_block 2 3 (Except.ok () : Except Unit Unit)).2
        = CallOutcome.rejected)
    ∧ (((CircuitBreaker.init "svc" (MemoryStorage.new.increment_failure_counter "svc")
        State.CLOSED 1 60 0).with_block 2 3 (Except.ok () : Except Unit Unit)).1.state.state
        = State.OPEN) := by
  have h := c9_tripped_closed_never_admits
    (CircuitBreaker.init "svc" (MemoryStorage.new.increment_failure_counter "svc")
      State.CLOSED 1 60 0) 2 3 (Except.ok ())
  exact h.1 rfl (by decide)

/-- C10: every CircuitBreakerFactory built without an explicit storage
argument holds the single MemoryStorage instance created when the dataclass
field default was evaluated at class-definition time, so (1) any two such
factories reference the same storage object; (2) breakers they produce under
the same name are bound to that same object; (3) a failure recorded through
the first factory's breaker (one admitted failing guarded call) is visible
through the second factory's breaker: its failure counter for the shared
name reads one more than before. -/
theorem c10_factories_share_default_storage (st1 st2 : State) (th1 th2 to1 to2 : Nat)
    (h : Heap) (nm : String) (n0 n0' nc : Nat)
    (hadm : (h.store class_default_storage_id).failure_counter nm < th1) :
    ((CircuitBreakerFactory.mk_default_storage st1 th1 to1).storage
      = (CircuitBreakerFactory.mk_default_storage st2 th2 to2).storage)
    ∧ (((CircuitBreakerFactory.mk_default_storage State.CLOSED th1 to1).call h nm n0).1.storage
      = ((CircuitBreakerFactory.mk_default_storage st2 th2 to2).call
          ((((CircuitBreakerFactory.mk_default_storage State.CLOSED th1 to1).call h nm
            n0).1.with_blockH
            (((CircuitBreakerFactory.mk_default_storage State.CLOSED th1 to1).call h nm n0).2)
            nc nc (Except.error () : Except Unit Unit)).2) nm n0').1.storage)
    ∧ ((((CircuitBreakerFactory.mk_default_storage st2 th2 to2).call
          ((((CircuitBreakerFactory.mk_default_storage State.CLOSED th1 to1).call h nm
            n0).1.with_blockH
            (((CircuitBreakerFactory.mk_default_storage State.CLOSED th1 to1).call h nm n0).2)
            nc nc (Except.error () : Except Unit Unit)).2) nm n0').2.store
        (((CircuitBreakerFactory.mk_default_storage st2 th2 to2).call
          ((((CircuitBreakerFactory.mk_default_storage State.CLOSED th1 to1).call h nm
            n0).1.with_blockH
            (((CircuitBreakerFactory.mk_default_storage State.CLOSED th1 to1).call h nm n0).2)
            nc nc (Except.error () : Except Unit Unit)).2) nm n0').1.storage)).failure_counter nm
      = (h.store class_default_storage_id).failure_counter nm + 1) := by
  replace hadm : (h.store 0).failure_map nm < th1 := hadm
  by_cases htrip : th1 ≤ (h.store 0).failure_map nm + 1 <;>
  cases st2 <;>
    simp [CircuitBreakerFactory.mk_default_storage, CircuitBreakerFactory.call,
      BoundBreaker.with_blockH, Heap.update, _get_state, OpenState, ClosedState, HalfOpenState,
      CircuitBreaker.with_block, CircuitBreaker.enter, CircuitBreaker.exit,
      BaseState.next_state, BaseState.failure, BaseState.is_open,
      MemoryStorage.failure_counter, MemoryStorage.increment_failure_counter,
      MemoryStorage.timer, MemoryStorage.start_timeout_timer, class_default_storage_id,
      not_le_of_lt hadm, htrip]

/-- Concrete instance of C10: a fresh heap, threshold 5; the failure recorded
through the first default-storage factory's breaker is read as 1 through the
second default-storage factory's breaker. -/
theorem c10_factories_share_default_storage_witness :
    (((CircuitBreakerFactory.mk_default_storage State.HALF_OPEN 7 9).call
        ((((CircuitBreakerFactory.mk_default_storage State.CLOSED 5 60).call
          (Heap.mk fun _ => MemoryStorage.new) "svc" 0).1.with_blockH
          (((CircuitBreakerFactory.mk_default_storage State.CLOSED 5 60).call
            (Heap.mk fun _ => MemoryStorage.new) "svc" 0).2)
          1 1 (Except.error () : Except Unit Unit)).2) "svc" 2).2.store
      (((CircuitBreakerFactory.mk_default_storage State.HALF_OPEN 7 9).call
        ((((CircuitBreakerFactory.mk_default_storage State.CLOSED 5 60).call
          (Heap.mk fun _ => MemoryStorage.new) "svc" 0).1.with_blockH
          (((CircuitBreakerFactory.mk_default_storage State.CLOSED 5 60).call
            (Heap.mk fun _ => MemoryStorage.new) "svc" 0).2)
          1 1 (Except.error () : Except Unit Unit)).2) "svc" 2).1.storage)).failure_counter
      "svc" = (((Heap.mk fun _ => MemoryStorage.new) : Heap).store
        class_default_storage_id).failure_counter "svc" + 1 := by
  have h := c10_factories_share_default_storage State.CLOSED State.HALF_OPEN 5 7 60 9
    (Heap.mk fun _ => MemoryStorage.new) "svc" 0 2 1 (by decide)
  exact h.2.2
